import Mathlib

set_option autoImplicit false

/-!
Shallow embedding of the idle-webz game engine core
(`src/game/GameEngine.ts`, `src/game/producers/ProducerManager.ts`,
`src/game/autobuy/AutoBuyer.ts`, `src/game/typing/TypingEngine.ts`,
`src/constants/gameConstants.ts`, `src/constants/challenges.ts`).

JavaScript numbers are modelled as rationals (`ℚ`), timestamps in
milliseconds as integers (`ℤ`); `Date.now()` and `Math.random()` are
threaded through as explicit parameters (`now`, `randIdx`).  `Set<string>`
is modelled as a duplicate-free `List String` with insertion at the back
(JS sets preserve insertion order).  Class instances become explicit state
records; each method becomes a function taking and returning its state.
-/

attribute [local semireducible] Rat.mul Rat.inv Rat.add Rat.sub

namespace IdleWebz

/-- Constant `TYPING_CONFIG.baseCharValue` from `gameConstants.ts` (0.5). -/
def baseCharValue : ℚ := 1/2

/-- Constant `TYPING_CONFIG.wordBonusMultiplier` from `gameConstants.ts`. -/
def wordBonusMultiplier : ℚ := 2

/-- Constant `TYPING_CONFIG.streakStep` from `gameConstants.ts` (0.05). -/
def streakStep : ℚ := 1/20

/-- Constant `TYPING_CONFIG.maxStreakMultiplier` from `gameConstants.ts`. -/
def maxStreakMultiplier : ℚ := 2

/-- Constant `TYPING_CONFIG.wordsPerChallenge` from `gameConstants.ts`. -/
def wordsPerChallenge : Int := 10

/-- Constant `TYPING_CONFIG.challengeRewardMultiplier` from `gameConstants.ts`. -/
def challengeRewardMultiplier : ℚ := 5

/-- Constant `BASE_CLICK_POWER` from `gameConstants.ts`. -/
def BASE_CLICK_POWER : ℚ := 1

/-- Constant `DEFAULT_COST_MULTIPLIER` from `gameConstants.ts` (1.16). -/
def DEFAULT_COST_MULTIPLIER : ℚ := 116/100

/-- Interface `ProducerTier` from `GameEngine.ts`: static config plus the
mutable `quantity` and `totalSpent` fields. -/
structure ProducerTier where
  id : String
  name : String
  descr : String
  baseCost : ℚ
  costMultiplier : ℚ
  productionRate : ℚ
  quantity : Nat
  totalSpent : ℚ
  unlockThreshold : Option ℚ
deriving DecidableEq, Repr

/-- Producer list built by `GameEngine.initializeProducers`, with the tier
data of `PRODUCER_TIERS` from `gameConstants.ts` inlined. -/
def initialProducers : List ProducerTier :=
  [ { id := "codingSession", name := "Coding Session",
      descr := "Write code manually via clicks or typing",
      baseCost := 0, costMultiplier := 1, productionRate := 1,
      quantity := 0, totalSpent := 0, unlockThreshold := none },
    { id := "scriptRunner", name := "Script Runner",
      descr := "Automates simple tasks; runs helper scripts",
      baseCost := 120, costMultiplier := DEFAULT_COST_MULTIPLIER, productionRate := 1,
      quantity := 0, totalSpent := 0, unlockThreshold := some 100 },
    { id := "buildServer", name := "Build Server",
      descr := "Compiles and bundles projects continuously",
      baseCost := 600, costMultiplier := DEFAULT_COST_MULTIPLIER, productionRate := 8,
      quantity := 0, totalSpent := 0, unlockThreshold := some 500 },
    { id := "ciPipeline", name := "CI Pipeline",
      descr := "Runs tests and deployments automatically",
      baseCost := 3000, costMultiplier := DEFAULT_COST_MULTIPLIER, productionRate := 50,
      quantity := 0, totalSpent := 0, unlockThreshold := some 2500 },
    { id := "cloudOrchestrator", name := "Cloud Orchestrator",
      descr := "Scales microservices seamlessly",
      baseCost := 15000, costMultiplier := DEFAULT_COST_MULTIPLIER, productionRate := 400,
      quantity := 0, totalSpent := 0, unlockThreshold := some 12500 } ]

/-- State held by a `ProducerManager` instance: the cached best-value id and
the timestamp of the last best-value computation. -/
structure ProducerManagerState where
  bestValueId : Option String
  lastCalc : Int
deriving DecidableEq, Repr

namespace ProducerManager

/-- Method `ProducerManager.getCost`:
`Math.floor(p.baseCost * Math.pow(p.costMultiplier, p.quantity))`. -/
def getCost (p : ProducerTier) : ℚ :=
  ((⌊p.baseCost * p.costMultiplier ^ p.quantity⌋ : ℤ) : ℚ)

/-- Method `ProducerManager.canAfford`: cost positive and resources cover it. -/
def canAfford (p : ProducerTier) (resources : ℚ) : Bool :=
  decide (0 < getCost p) && decide (getCost p ≤ resources)

/-- Selection loop shared by `recalcBestValue` and the auto-buyer: walk the
candidate list keeping the entry with the strictly smallest value of `f`
(first minimum wins, as in the source `for` loops). -/
def bestLoop (f : ProducerTier → ℚ) : ProducerTier → ℚ → List ProducerTier → ProducerTier
  | best, _, [] => best
  | best, bestRV, p :: rest =>
    if f p < bestRV then bestLoop f p (f p) rest else bestLoop f best bestRV rest

/-- Method `ProducerManager.recalcBestValue`: throttled to once per 5000 ms
while a best-value id is cached, then recomputes the minimiser of
`getCost p / p.productionRate` over non-manual producers with positive rate. -/
def recalcBestValue (pm : ProducerManagerState) (producers : List ProducerTier)
    (now : Int) : ProducerManagerState :=
  if now - pm.lastCalc < 5000 ∧ pm.bestValueId.isSome then pm
  else
    let candidates := producers.filter
      (fun p => (p.id != "codingSession") && decide (0 < p.productionRate))
    match candidates with
    | [] => { bestValueId := none, lastCalc := now }
    | c :: _ =>
      let best := bestLoop (fun p => getCost p / p.productionRate)
        c (getCost c / c.productionRate) candidates
      { bestValueId := some best.id, lastCalc := now }

/-- Method `ProducerManager.applyUnlocks`: add every producer whose positive
unlock threshold is reached to the visible set; never removes entries. -/
def applyUnlocks (producers : List ProducerTier) (resources : ℚ)
    (unlocked : List String) : List String :=
  producers.foldl
    (fun acc p =>
      match p.unlockThreshold with
      | none => acc
      | some th =>
        if 0 < th ∧ ¬ acc.contains p.id ∧ th ≤ resources then acc ++ [p.id] else acc)
    unlocked

/-- Result record of `ProducerManager.purchase`: success flag, remaining
resources, and the (possibly mutated) target producer. -/
structure PurchaseResult where
  success : Bool
  newResources : ℚ
  producer : ProducerTier
deriving DecidableEq, Repr

/-- Method `ProducerManager.purchase`: fails without mutation when the cost
is not positive or not covered; otherwise increments `quantity`, adds the
cost to `totalSpent` and returns the decremented resources. -/
def purchase (target : ProducerTier) (resources : ℚ) : PurchaseResult :=
  let cost := getCost target
  if resources < cost ∨ cost ≤ 0 then
    { success := false, newResources := resources, producer := target }
  else
    { success := true, newResources := resources - cost,
      producer := { target with quantity := target.quantity + 1,
                                totalSpent := target.totalSpent + cost } }

/-- Method `ProducerManager.totalProduction`: sum of `rate × quantity` over
all producers except the manual `codingSession` pseudo-producer. -/
def totalProduction (producers : List ProducerTier) : ℚ :=
  producers.foldl
    (fun sum p =>
      if p.id = "codingSession" then sum else sum + p.productionRate * (p.quantity : ℚ))
    0

end ProducerManager

/-- State held by an `AutoBuyer` instance from `AutoBuyer.ts`. -/
structure AutoBuyerState where
  enabled : Bool
  speedLevel : Nat
  lastBuy : Int
deriving DecidableEq, Repr

namespace AutoBuyer

/-- Method `AutoBuyer.getIntervalMs`: base 30000 ms minus 2000 ms per speed
level, floored at 2000 ms. -/
def getIntervalMs (a : AutoBuyerState) : Int :=
  max 2000 (30000 - (a.speedLevel : Int) * 2000)

/-- Method `AutoBuyer.getSecondsUntilNext`: remaining milliseconds until the
next attempt, rounded up to seconds; zero when disabled. -/
def getSecondsUntilNext (a : AutoBuyerState) (now : Int) : Int :=
  if !a.enabled then 0
  else ⌈((max 0 (getIntervalMs a - (now - a.lastBuy)) : Int) : ℚ) / 1000⌉

/-- Method `AutoBuyer.tryPurchaseBest`: when enabled and a full interval has
elapsed, pick among affordable non-manual producers the one with the
smallest current cost per production rate; the `lastBuy` timestamp is
written only on the branch that found an affordable producer. -/
def tryPurchaseBest (a : AutoBuyerState) (now : Int) (resources : ℚ)
    (producers : List ProducerTier) (getCostF : String → ℚ) :
    AutoBuyerState × Option String :=
  if !a.enabled then (a, none)
  else if now - a.lastBuy < getIntervalMs a then (a, none)
  else
    let affordable := producers.filter
      (fun p => (p.id != "codingSession") && decide (getCostF p.id ≤ resources))
    match affordable with
    | [] => (a, none)
    | b :: _ =>
      let best := ProducerManager.bestLoop (fun p => getCostF p.id / p.productionRate)
        b (getCostF b.id / b.productionRate) affordable
      ({ a with lastBuy := now }, some best.id)

/-- Method `AutoBuyer.getSpeedUpgradeCost`: `floor(10000 * 1.5 ^ level)`. -/
def getSpeedUpgradeCost (a : AutoBuyerState) : ℚ :=
  ((⌊(10000 : ℚ) * (15/10) ^ a.speedLevel⌋ : ℤ) : ℚ)

end AutoBuyer

/-- Word-boundary characters from `WORD_BOUNDARIES` in `gameConstants.ts`. -/
def WORD_BOUNDARIES : List Char := [' ', '\n', '\t', '.', ',', '!', '?', ';', ':']

/-- Membership test for `WORD_BOUNDARIES.has(char)`. -/
def isBoundary (ch : Char) : Bool := WORD_BOUNDARIES.contains ch

/-- Interface `MiniChallengeDef` from `challenges.ts`. -/
structure MiniChallengeDef where
  id : String
  snippet : String
  timeLimitSeconds : Int
  descr : String
deriving DecidableEq, Repr

/-- Challenge catalog `MINI_CHALLENGES` from `challenges.ts`. -/
def MINI_CHALLENGES : List MiniChallengeDef :=
  [ { id := "git-init", snippet := "git init", timeLimitSeconds := 6,
      descr := "Initialize a new repository" },
    { id := "npm-install", snippet := "npm install", timeLimitSeconds := 8,
      descr := "Install dependencies fast" },
    { id := "build-script", snippet := "npm run build", timeLimitSeconds := 9,
      descr := "Trigger a production build" },
    { id := "test-run", snippet := "npm test", timeLimitSeconds := 7,
      descr := "Execute the test suite" },
    { id := "eslint-fix", snippet := "npx eslint . --fix", timeLimitSeconds := 12,
      descr := "Fix lint issues automatically" },
    { id := "docker-build", snippet := "docker build .", timeLimitSeconds := 10,
      descr := "Build a container image" },
    { id := "deploy", snippet := "git push origin main", timeLimitSeconds := 13,
      descr := "Deploy latest changes" } ]

/-- Function `pickRandomChallenge` from `challenges.ts`, with the random
draw `Math.floor(Math.random() * length)` passed in as `randIdx`. -/
def pickChallenge (randIdx : Nat) : MiniChallengeDef :=
  MINI_CHALLENGES.getD (randIdx % MINI_CHALLENGES.length)
    { id := "", snippet := "", timeLimitSeconds := 0, descr := "" }

/-- Interface `ActiveChallenge` from `TypingEngine.ts`. -/
structure ActiveChallenge where
  id : String
  snippet : String
  descr : String
  timeLimitMs : Int
  startTime : Int
  progress : Nat
  startedOnNewLine : Bool
deriving DecidableEq, Repr

/-- State held by a `TypingEngine` instance (its private fields plus the
`TypingStats` record it embeds). -/
structure TypingEngineState where
  lastTypedChar : Option Char
  consecutiveSameCharCount : Nat
  wordsTyped : Nat
  streakWords : Nat
  currentWordLength : Nat
  challenge : Option ActiveChallenge
  lastChallengeWords : Nat
  completedChallenges : Nat
  failedChallenges : Nat
  challengesEnabled : Bool
deriving DecidableEq, Repr

/-- Initial `TypingEngine` state (field initializers in `TypingEngine.ts`). -/
def initialTyping : TypingEngineState :=
  { lastTypedChar := none, consecutiveSameCharCount := 0,
    wordsTyped := 0, streakWords := 0, currentWordLength := 0,
    challenge := none, lastChallengeWords := 0,
    completedChallenges := 0, failedChallenges := 0, challengesEnabled := true }

namespace TypingEngine

/-- Method `TypingEngine.getCurrentStreakMultiplier`:
`min(maxStreakMultiplier, 1 + streakWords * streakStep)`. -/
def streakMultiplier (s : TypingEngineState) : ℚ :=
  min maxStreakMultiplier (1 + (s.streakWords : ℚ) * streakStep)

/-- Method `TypingEngine.failChallenge`: increment the failed count, reset
the streak to zero and clear the challenge (no-op when none is active). -/
def failChallenge (s : TypingEngineState) : TypingEngineState :=
  match s.challenge with
  | none => s
  | some _ =>
    { s with failedChallenges := s.failedChallenges + 1, streakWords := 0,
             challenge := none }

/-- Method `TypingEngine.completeChallenge`: reward
`snippetLength × baseCharValue × challengeRewardMultiplier × multiplier`
(multiplier read before the streak boost), then increment the completed
count and the streak and clear the challenge. -/
def completeChallenge (s : TypingEngineState) : TypingEngineState × ℚ :=
  match s.challenge with
  | none => (s, 0)
  | some c =>
    ({ s with completedChallenges := s.completedChallenges + 1,
              streakWords := s.streakWords + 1, challenge := none },
     (c.snippet.length : ℚ) * baseCharValue * challengeRewardMultiplier *
       streakMultiplier s)

/-- Method `TypingEngine.startChallenge`: install the picked definition as
the active challenge (progress 0, awaiting the starting newline) and record
the words-typed baseline. -/
def startChallenge (now : Int) (randIdx : Nat) (s : TypingEngineState) :
    TypingEngineState :=
  let d := pickChallenge randIdx
  { s with
    challenge := some
      { id := d.id, snippet := d.snippet, descr := d.descr,
        timeLimitMs := d.timeLimitSeconds * 1000, startTime := now,
        progress := 0, startedOnNewLine := false },
    lastChallengeWords := s.wordsTyped }

/-- Method `TypingEngine.triggerChallenge`: start a challenge on demand if
none is active. -/
def triggerChallenge (now : Int) (randIdx : Nat) (s : TypingEngineState) :
    TypingEngineState × Bool :=
  match s.challenge with
  | some _ => (s, false)
  | none => (startChallenge now randIdx s, true)

/-- Method `TypingEngine.completeWord`: increment words typed and the
streak, then grant `wordLength × baseCharValue × wordBonusMultiplier ×
multiplier` where the multiplier is read after the streak increment. -/
def completeWord (s : TypingEngineState) : TypingEngineState × ℚ :=
  let s2 := { s with wordsTyped := s.wordsTyped + 1, streakWords := s.streakWords + 1 }
  (s2, (s.currentWordLength : ℚ) * baseCharValue * wordBonusMultiplier *
    streakMultiplier s2)

/-- Method `TypingEngine.handleWordBoundary`: finalize a non-empty word,
reset the word length, and auto-start a challenge when challenges are
enabled, none is active, at least one word has been typed and the
words-per-challenge threshold has been reached. -/
def handleWordBoundary (now : Int) (randIdx : Nat) (s : TypingEngineState) :
    TypingEngineState × ℚ :=
  let r : TypingEngineState × ℚ :=
    if 0 < s.currentWordLength then completeWord s else (s, 0)
  let s2 : TypingEngineState := { r.1 with currentWordLength := 0 }
  if s2.challengesEnabled = true ∧ s2.challenge = none ∧ 0 < s2.wordsTyped ∧
      wordsPerChallenge ≤ (s2.wordsTyped : Int) - (s2.lastChallengeWords : Int)
  then (startChallenge now randIdx s2, r.2)
  else (s2, r.2)

/-- Challenge branch of `TypingEngine.handleChar` (the leading
`if (this.challenge)` block): timeout failure, the awaiting-start newline
(the only early return, flagged in the third component), wrong-position
newline, progress on the expected character with possible completion, and
failure on any other character. -/
def challengePhase (now : Int) (ch : Char) (s : TypingEngineState) :
    TypingEngineState × ℚ × Bool :=
  match s.challenge with
  | none => (s, 0, false)
  | some c =>
    if c.timeLimitMs < now - c.startTime then (failChallenge s, 0, false)
    else if !c.startedOnNewLine then
      if ch = '\n' then
        ({ s with challenge := some { c with startedOnNewLine := true } }, 0, true)
      else (s, 0, false)
    else if ch = '\n' then (failChallenge s, 0, false)
    else if c.snippet.data[c.progress]? = some ch then
      let s2 := { s with challenge := some { c with progress := c.progress + 1 } }
      if c.progress + 1 ≥ c.snippet.length then
        let r := completeChallenge s2
        (r.1, r.2, false)
      else (s2, 0, false)
    else (failChallenge s, 0, false)

/-- Anti-spam and reward steps of `TypingEngine.handleChar` (everything
after the challenge block): repeat tracking, damping from the third
consecutive repeat on, per-character reward for non-boundary characters
and word finalization on boundary characters. -/
def normalPhase (now : Int) (randIdx : Nat) (ch : Char) (s : TypingEngineState) :
    TypingEngineState × ℚ :=
  let s1 :=
    if s.lastTypedChar = some ch then
      { s with consecutiveSameCharCount := s.consecutiveSameCharCount + 1 }
    else { s with lastTypedChar := some ch, consecutiveSameCharCount := 1 }
  if 3 ≤ s1.consecutiveSameCharCount then
    if !isBoundary ch then ({ s1 with currentWordLength := s1.currentWordLength + 1 }, 0)
    else handleWordBoundary now randIdx s1
  else if !isBoundary ch then
    ({ s1 with currentWordLength := s1.currentWordLength + 1 },
     baseCharValue * streakMultiplier s1)
  else handleWordBoundary now randIdx s1

/-- Method `TypingEngine.handleChar`: the challenge branch followed by the
normal steps, except that the newline starting an awaiting-start challenge
returns early; the second component is the total reward passed to the
`addResources` callback. -/
def handleChar (now : Int) (randIdx : Nat) (ch : Char) (s : TypingEngineState) :
    TypingEngineState × ℚ :=
  let r := challengePhase now ch s
  if r.2.2 then (r.1, r.2.1)
  else
    let r2 := normalPhase now randIdx ch r.1
    (r2.1, r.2.1 + r2.2)

/-- Repeated application of `handleChar` to a character sequence,
accumulating the rewards. -/
def handleChars (now : Int) (randIdx : Nat) (s : TypingEngineState) :
    List Char → TypingEngineState × ℚ
  | [] => (s, 0)
  | ch :: rest =>
    let r := handleChar now randIdx ch s
    let r2 := handleChars now randIdx r.1 rest
    (r2.1, r.2 + r2.2)

end TypingEngine

/-- One-time upgrade definition, as consumed through `UPGRADES` in
`GameEngine.ts`. -/
structure Upgrade where
  id : String
  name : String
  descr : String
  cost : ℚ
deriving DecidableEq, Repr

/-- Modelled from the spec: the `UPGRADES` constant itself lives in
`gameConstants.ts`, whose current revision is not among the provided
sources (only callers and docs are).  Ids are those referenced by the
engine and components; costs follow the quickstart/upgrade docs
(typing 5000, auto-buy 3000, challenges 20000). -/
def UPGRADES : List Upgrade :=
  [ { id := "typing", name := "Typing Mechanic",
      descr := "Unlocks typing gameplay", cost := 5000 },
    { id := "autoBuy", name := "Auto-Buy",
      descr := "Unlocks automatic producer purchasing", cost := 3000 },
    { id := "challenges", name := "Code Challenges",
      descr := "Unlocks typing challenges", cost := 20000 } ]

/-- Lookup in `Object.values(UPGRADES).find(u => u.id === upgradeId)`. -/
def findUpgrade (upgradeId : String) : Option Upgrade :=
  UPGRADES.find? (fun u => u.id == upgradeId)

/-- Insertion into a JS `Set<string>` modelled as a duplicate-free list:
append when the id is not yet present. -/
def addId (l : List String) (x : String) : List String :=
  if x ∈ l then l else l ++ [x]

/-- Construction `new Set(array)`: keep the first occurrence of each
element, preserving order. -/
def dedupKeep (l : List String) : List String :=
  l.foldl addId []

/-- State held by a `GameEngine` instance: its declared fields plus the
embedded `TypingEngine`, `AutoBuyer` and `ProducerManager` instances.
The declarations and initializers of `unlockedProducers`,
`purchasedUpgrades`, `clickPowerLevel` and `challengesEnabled` are missing
from the provided `GameEngine.ts` (the methods use them); they are
modelled from the spec: visible producers start with the manual producer,
no upgrades purchased, click-power level 0, challenges enabled. -/
structure GameEngineState where
  resources : ℚ
  productionRate : ℚ
  producers : List ProducerTier
  autoBuyEnabled : Bool
  autoBuySpeedLevel : Nat
  lastUpdate : Int
  lastAutoBuy : Int
  bestValueProducerId : Option String
  typing : TypingEngineState
  autoBuyer : AutoBuyerState
  producerManager : ProducerManagerState
  unlockedProducers : List String
  purchasedUpgrades : List String
  clickPowerLevel : Nat
  challengesEnabled : Bool
deriving DecidableEq, Repr

namespace GameEngine

/-- Constructor of `GameEngine` evaluated at `Date.now() = now`. -/
def initialEngine (now : Int) : GameEngineState :=
  { resources := 0, productionRate := 0, producers := initialProducers,
    autoBuyEnabled := false, autoBuySpeedLevel := 0,
    lastUpdate := now, lastAutoBuy := now, bestValueProducerId := none,
    typing := initialTyping,
    autoBuyer := { enabled := false, speedLevel := 0, lastBuy := now },
    producerManager := { bestValueId := none, lastCalc := 0 },
    unlockedProducers := ["codingSession"], purchasedUpgrades := [],
    clickPowerLevel := 0, challengesEnabled := true }

/-- Lookup `this.producers.find(u => u.id === producerId)`. -/
def findProducer (e : GameEngineState) (producerId : String) : Option ProducerTier :=
  e.producers.find? (fun p => p.id == producerId)

/-- Replacement of the first producer with the given id (the in-place
mutation of the object returned by `find`). -/
def replaceProducer : List ProducerTier → String → ProducerTier → List ProducerTier
  | [], _, _ => []
  | p :: rest, pid, p2 =>
    if p.id = pid then p2 :: rest else p :: replaceProducer rest pid p2

/-- Method `GameEngine.getProducerCost`: 0 for an unknown producer id. -/
def getProducerCost (e : GameEngineState) (producerId : String) : ℚ :=
  match findProducer e producerId with
  | none => 0
  | some p => ProducerManager.getCost p

/-- Method `GameEngine.canAffordProducer`. -/
def canAffordProducer (e : GameEngineState) (producerId : String) : Bool :=
  match findProducer e producerId with
  | none => false
  | some p => ProducerManager.canAfford p e.resources

/-- Method `GameEngine.updateProductionRate`. -/
def updateProductionRate (e : GameEngineState) : GameEngineState :=
  { e with productionRate := ProducerManager.totalProduction e.producers }

/-- Method `GameEngine.calculateBestValue`: delegate to the producer
manager and mirror its cached id. -/
def calculateBestValue (now : Int) (e : GameEngineState) : GameEngineState :=
  let pm := ProducerManager.recalcBestValue e.producerManager e.producers now
  { e with producerManager := pm, bestValueProducerId := pm.bestValueId }

/-- Method `GameEngine.purchaseProducer`: on success commit the new
resources and the mutated producer, refresh the production rate and call
`calculateBestValue`. -/
def purchaseProducer (now : Int) (e : GameEngineState) (producerId : String) :
    GameEngineState × Bool :=
  match findProducer e producerId with
  | none => (e, false)
  | some p =>
    let r := ProducerManager.purchase p e.resources
    if r.success then
      (calculateBestValue now (updateProductionRate
        { e with producers := replaceProducer e.producers producerId r.producer,
                 resources := r.newResources }), true)
    else (e, false)

/-- Method `GameEngine.handleAutoBuy`: sync the auto-buyer flags, run
`tryPurchaseBest`, and purchase the returned producer id if any. -/
def handleAutoBuy (now : Int) (e : GameEngineState) : GameEngineState :=
  let a : AutoBuyerState :=
    { e.autoBuyer with enabled := e.autoBuyEnabled, speedLevel := e.autoBuySpeedLevel }
  let r := AutoBuyer.tryPurchaseBest a now e.resources e.producers (getProducerCost e)
  let e2 : GameEngineState := { e with autoBuyer := r.1 }
  match r.2 with
  | none => e2
  | some pid =>
    match findProducer e2 pid with
    | none => e2
    | some target =>
      let pr := ProducerManager.purchase target e2.resources
      if pr.success then
        updateProductionRate
          { e2 with producers := replaceProducer e2.producers pid pr.producer,
                    resources := pr.newResources }
      else e2

/-- Method `GameEngine.update`: elapsed-time delta, unlock gating, passive
production, and the auto-buy cycle when enabled (the current engine has no
challenge-timeout step here). -/
def update (now : Int) (e : GameEngineState) : GameEngineState :=
  let dt : ℚ := ((now - e.lastUpdate : Int) : ℚ) / 1000
  let e1 : GameEngineState := { e with lastUpdate := now }
  let e2 : GameEngineState :=
    { e1 with unlockedProducers :=
        ProducerManager.applyUnlocks e1.producers e1.resources e1.unlockedProducers }
  let e3 : GameEngineState :=
    if 0 < e2.productionRate then
      { e2 with resources := e2.resources + e2.productionRate * dt }
    else e2
  if e3.autoBuyEnabled then handleAutoBuy now e3 else e3

/-- Method `GameEngine.getClickValue`: `BASE_CLICK_POWER * 2 ^ level`. -/
def getClickValue (e : GameEngineState) : ℚ :=
  BASE_CLICK_POWER * (2 : ℚ) ^ e.clickPowerLevel

/-- Method `GameEngine.click`. -/
def click (e : GameEngineState) : GameEngineState :=
  { e with resources := e.resources + getClickValue e }

/-- Method `GameEngine.typeChar`: delegate to the typing engine, adding the
reward to the resource pool. -/
def typeChar (now : Int) (randIdx : Nat) (ch : Char) (e : GameEngineState) :
    GameEngineState :=
  let r := TypingEngine.handleChar now randIdx ch e.typing
  { e with typing := r.1, resources := e.resources + r.2 }

/-- Method `GameEngine.purchaseUpgrade`: reject an already-purchased,
unknown, or unaffordable upgrade; otherwise deduct the cost and record the
id. -/
def purchaseUpgrade (e : GameEngineState) (upgradeId : String) :
    GameEngineState × Bool :=
  if upgradeId ∈ e.purchasedUpgrades then (e, false)
  else
    match findUpgrade upgradeId with
    | none => (e, false)
    | some u =>
      if e.resources < u.cost then (e, false)
      else ({ e with resources := e.resources - u.cost,
                     purchasedUpgrades := addId e.purchasedUpgrades upgradeId }, true)

/-- Method `GameEngine.getAutoBuySpeedUpgradeCost`: `floor(10000·1.5^lvl)`. -/
def getAutoBuySpeedUpgradeCost (e : GameEngineState) : ℚ :=
  ((⌊(10000 : ℚ) * (15/10) ^ e.autoBuySpeedLevel⌋ : ℤ) : ℚ)

/-- Method `GameEngine.canAffordAutoBuySpeedUpgrade`: requires the auto-buy
upgrade to be owned. -/
def canAffordAutoBuySpeedUpgrade (e : GameEngineState) : Bool :=
  if "autoBuy" ∉ e.purchasedUpgrades then false
  else decide (getAutoBuySpeedUpgradeCost e ≤ e.resources)

/-- Method `GameEngine.purchaseAutoBuySpeedUpgrade`: gated on the auto-buy
upgrade, the cost, and the level-14 cap. -/
def purchaseAutoBuySpeedUpgrade (e : GameEngineState) : GameEngineState × Bool :=
  if "autoBuy" ∉ e.purchasedUpgrades then (e, false)
  else
    let cost := getAutoBuySpeedUpgradeCost e
    if e.resources < cost then (e, false)
    else if 14 ≤ e.autoBuySpeedLevel then (e, false)
    else ({ e with resources := e.resources - cost,
                   autoBuySpeedLevel := e.autoBuySpeedLevel + 1 }, true)

/-- Method `GameEngine.getAutoBuyInterval`. -/
def getAutoBuyInterval (e : GameEngineState) : Int :=
  max 2000 (30000 - (e.autoBuySpeedLevel : Int) * 2000)

/-- Method `GameEngine.getClickPowerUpgradeCost`: `floor(10000 * 2 ^ lvl)`. -/
def getClickPowerUpgradeCost (e : GameEngineState) : ℚ :=
  ((⌊(10000 : ℚ) * (2 : ℚ) ^ e.clickPowerLevel⌋ : ℤ) : ℚ)

/-- Method `GameEngine.canAffordClickPowerUpgrade`. -/
def canAffordClickPowerUpgrade (e : GameEngineState) : Bool :=
  decide (getClickPowerUpgradeCost e ≤ e.resources)

/-- Method `GameEngine.purchaseClickPowerUpgrade`. -/
def purchaseClickPowerUpgrade (e : GameEngineState) : GameEngineState × Bool :=
  let cost := getClickPowerUpgradeCost e
  if e.resources < cost then (e, false)
  else ({ e with resources := e.resources - cost,
                 clickPowerLevel := e.clickPowerLevel + 1 }, true)

/-- Method `GameEngine.toggleAutoBuy`: gated on the auto-buy upgrade; flips
the flag and, when enabling, resets the engine-level `lastAutoBuy`
timestamp (the auto-buyer's own `lastBuy` field is not touched). -/
def toggleAutoBuy (now : Int) (e : GameEngineState) : GameEngineState :=
  if "autoBuy" ∉ e.purchasedUpgrades then e
  else
    let en := !e.autoBuyEnabled
    if en then { e with autoBuyEnabled := en, lastAutoBuy := now }
    else { e with autoBuyEnabled := en }

/-- Method `GameEngine.toggleChallenges`: gated on the challenges upgrade;
flips the flag and mirrors it into the typing engine. -/
def toggleChallenges (e : GameEngineState) : GameEngineState :=
  if "challenges" ∉ e.purchasedUpgrades then e
  else
    let c := !e.challengesEnabled
    { e with challengesEnabled := c,
             typing := { e.typing with challengesEnabled := c } }

/-- Method `GameEngine.reset`: zero the resources, rate, auto-buy flag and
speed level, every producer's quantity and total spent, and refresh the
two engine timestamps; no other field is written. -/
def reset (now : Int) (e : GameEngineState) : GameEngineState :=
  { e with resources := 0, productionRate := 0, autoBuyEnabled := false,
           autoBuySpeedLevel := 0, lastAutoBuy := now,
           producers := e.producers.map
             (fun p => { p with quantity := 0, totalSpent := 0 }),
           lastUpdate := now }

/-- Per-producer slice of the save snapshot
(`{ id, quantity, totalSpent }`, where `totalSpent` is optional in the
load signature). -/
structure SavedProducer where
  id : String
  quantity : Nat
  totalSpent : Option ℚ
deriving DecidableEq, Repr

/-- Save snapshot accepted by `GameEngine.load`; every field is optional,
including the two legacy flags. -/
structure SaveData where
  resources : Option ℚ
  producers : Option (List SavedProducer)
  lastUpdate : Option Int
  autoBuyEnabled : Option Bool
  autoBuyUnlocked : Option Bool
  autoBuySpeedLevel : Option Nat
  unlockedProducers : Option (List String)
  typingUnlocked : Option Bool
  purchasedUpgrades : Option (List String)
  clickPowerLevel : Option Nat
  challengesEnabled : Option Bool
deriving DecidableEq, Repr

/-- Producer slice written by `GameEngine.save`. -/
def saveProducer (p : ProducerTier) : SavedProducer :=
  { id := p.id, quantity := p.quantity, totalSpent := some p.totalSpent }

/-- Method `GameEngine.save`: the flat snapshot of the persisted fields
(the legacy flags are never written). -/
def save (e : GameEngineState) : SaveData :=
  { resources := some e.resources,
    producers := some (e.producers.map saveProducer),
    lastUpdate := some e.lastUpdate,
    autoBuyEnabled := some e.autoBuyEnabled,
    autoBuyUnlocked := none,
    autoBuySpeedLevel := some e.autoBuySpeedLevel,
    unlockedProducers := some e.unlockedProducers,
    typingUnlocked := none,
    purchasedUpgrades := some e.purchasedUpgrades,
    clickPowerLevel := some e.clickPowerLevel,
    challengesEnabled := some e.challengesEnabled }

/-- One iteration of the producer-restoring loop in `GameEngine.load`:
mutate the first producer whose id matches the saved entry. -/
def loadProducersStep : List ProducerTier → SavedProducer → List ProducerTier
  | [], _ => []
  | p :: rest, sp =>
    if p.id = sp.id then
      { p with quantity := sp.quantity,
               totalSpent := sp.totalSpent.getD p.totalSpent } :: rest
    else p :: loadProducersStep rest sp

/-- Producer-restoring loop of `GameEngine.load` over all saved entries. -/
def loadProducers (ps : List ProducerTier) (saved : List SavedProducer) :
    List ProducerTier :=
  saved.foldl loadProducersStep ps

/-- Method `GameEngine.load`: field-by-field restoration with JS truthiness
on `lastUpdate` and the legacy flags, `new Set(...)` reconstruction of the
two id sets, a production-rate refresh after restoring producers, and the
legacy-flag migration into `purchasedUpgrades`. -/
def load (d : SaveData) (e : GameEngineState) : GameEngineState :=
  let e1 : GameEngineState :=
    match d.resources with
    | some r => { e with resources := r }
    | none => e
  let e2 : GameEngineState :=
    match d.producers with
    | some sp =>
      GameEngine.updateProductionRate
        { e1 with producers := loadProducers e1.producers sp }
    | none => e1
  let e3 : GameEngineState :=
    match d.lastUpdate with
    | some lu => if lu ≠ 0 then { e2 with lastUpdate := lu } else e2
    | none => e2
  let e4 : GameEngineState :=
    match d.autoBuyEnabled with
    | some b => { e3 with autoBuyEnabled := b }
    | none => e3
  let e5 : GameEngineState :=
    match d.autoBuySpeedLevel with
    | some n => { e4 with autoBuySpeedLevel := n }
    | none => e4
  let e6 : GameEngineState :=
    match d.unlockedProducers with
    | some l => { e5 with unlockedProducers := dedupKeep l }
    | none => e5
  let e7 : GameEngineState :=
    match d.purchasedUpgrades with
    | some l => { e6 with purchasedUpgrades := dedupKeep l }
    | none => e6
  let e8 : GameEngineState :=
    match d.clickPowerLevel with
    | some n => { e7 with clickPowerLevel := n }
    | none => e7
  let e9 : GameEngineState :=
    match d.challengesEnabled with
    | some c =>
      { e8 with challengesEnabled := c,
                typing := { e8.typing with challengesEnabled := c } }
    | none => e8
  let e10 : GameEngineState :=
    if d.autoBuyUnlocked.getD false then
      { e9 with purchasedUpgrades := addId e9.purchasedUpgrades "autoBuy" }
    else e9
  if d.typingUnlocked.getD false then
    { e10 with purchasedUpgrades := addId e10.purchasedUpgrades "typing" }
  else e10

/-- Producer entry of the `getState` view model. -/
structure ProducerView where
  producer : ProducerTier
  cost : ℚ
  canAfford : Bool
  unlocked : Bool
deriving DecidableEq, Repr

/-- Upgrade entry of the `getState` view model. -/
structure UpgradeView where
  upgrade : Upgrade
  purchased : Bool
  canAfford : Bool
deriving DecidableEq, Repr

/-- Challenge projection of the `getState` view model. -/
structure ChallengeView where
  id : String
  snippet : String
  descr : String
  progress : Nat
  total : Nat
  timeRemaining : Int
  startedOnNewLine : Bool
deriving DecidableEq, Repr

/-- View model returned by `GameEngine.getState` (its typing slice is the
spread of `TypingEngine.getUIState`). -/
structure GameState where
  resources : ℚ
  productionRate : ℚ
  producers : List ProducerView
  bestValueProducerId : Option String
  autoBuyEnabled : Bool
  autoBuySpeedLevel : Nat
  autoBuySpeedUpgradeCost : ℚ
  canAffordAutoBuySpeedUpgrade : Bool
  autoBuyInterval : Int
  timeUntilNextAutoBuy : Int
  upgrades : List UpgradeView
  wordsTyped : Nat
  streakWords : Nat
  currentStreakMultiplier : ℚ
  challenge : Option ChallengeView
  nextChallengeInWords : Int
  completedChallenges : Nat
  failedChallenges : Nat
  challengesEnabled : Bool
  clickPowerLevel : Nat
  clickValue : ℚ
  clickPowerUpgradeCost : ℚ
  canAffordClickPowerUpgrade : Bool
deriving DecidableEq, Repr

/-- Method `GameEngine.getUpgrades`. -/
def getUpgrades (e : GameEngineState) : List UpgradeView :=
  UPGRADES.map (fun u =>
    { upgrade := u, purchased := decide (u.id ∈ e.purchasedUpgrades),
      canAfford := decide (u.cost ≤ e.resources) && !decide (u.id ∈ e.purchasedUpgrades) })

/-- Challenge projection built inside `TypingEngine.getUIState`. -/
def challengeView (now : Int) (c : ActiveChallenge) : ChallengeView :=
  { id := c.id, snippet := c.snippet, descr := c.descr, progress := c.progress,
    total := c.snippet.length,
    timeRemaining := max 0 ⌈((c.timeLimitMs - (now - c.startTime) : Int) : ℚ) / 1000⌉,
    startedOnNewLine := c.startedOnNewLine }

/-- Method `GameEngine.getState`: recomputes the (throttled) best value,
then assembles the read-only view model; returns the updated engine
alongside the snapshot. -/
def getState (now : Int) (e : GameEngineState) : GameEngineState × GameState :=
  let e2 := GameEngine.calculateBestValue now e
  (e2,
   { resources := e2.resources,
     productionRate := e2.productionRate,
     producers := e2.producers.map (fun p =>
       { producer := p, cost := GameEngine.getProducerCost e2 p.id,
         canAfford := GameEngine.canAffordProducer e2 p.id,
         unlocked := e2.unlockedProducers.contains p.id }),
     bestValueProducerId := e2.bestValueProducerId,
     autoBuyEnabled := e2.autoBuyEnabled,
     autoBuySpeedLevel := e2.autoBuySpeedLevel,
     autoBuySpeedUpgradeCost := GameEngine.getAutoBuySpeedUpgradeCost e2,
     canAffordAutoBuySpeedUpgrade := GameEngine.canAffordAutoBuySpeedUpgrade e2,
     autoBuyInterval := ⌈((GameEngine.getAutoBuyInterval e2 : Int) : ℚ) / 1000⌉,
     timeUntilNextAutoBuy := AutoBuyer.getSecondsUntilNext e2.autoBuyer now,
     upgrades := getUpgrades e2,
     wordsTyped := e2.typing.wordsTyped,
     streakWords := e2.typing.streakWords,
     currentStreakMultiplier := TypingEngine.streakMultiplier e2.typing,
     challenge := e2.typing.challenge.map (challengeView now),
     nextChallengeInWords :=
       match e2.typing.challenge with
       | some _ => 0
       | none => max 0 (wordsPerChallenge -
           ((e2.typing.wordsTyped : Int) - (e2.typing.lastChallengeWords : Int))),
     completedChallenges := e2.typing.completedChallenges,
     failedChallenges := e2.typing.failedChallenges,
     challengesEnabled := e2.typing.challengesEnabled,
     clickPowerLevel := e2.clickPowerLevel,
     clickValue := GameEngine.getClickValue e2,
     clickPowerUpgradeCost := GameEngine.getClickPowerUpgradeCost e2,
     canAffordClickPowerUpgrade := GameEngine.canAffordClickPowerUpgrade e2 })

end GameEngine

/-- Engine state of the C1 scenario after the best value has been computed
once at t = 0 (fresh engine given 100000 resources by earlier play). -/
def c1Start : GameEngineState :=
  (GameEngine.getState 0 { (GameEngine.initialEngine 0) with resources := 100000 }).1

/-- Engine state of the C1 scenario after three Cloud Orchestrator
purchases at t = 100, 200, 300 (all within the 5-second throttle). -/
def c1Mid : GameEngineState :=
  (GameEngine.purchaseProducer 300
    ((GameEngine.purchaseProducer 200
      ((GameEngine.purchaseProducer 100 c1Start "cloudOrchestrator").1)
      "cloudOrchestrator").1)
    "cloudOrchestrator").1

/-- Fourth Cloud Orchestrator purchase of the C1 scenario, at t = 1000. -/
def c1Result : GameEngineState × Bool :=
  GameEngine.purchaseProducer 1000 c1Mid "cloudOrchestrator"

/-- Auto-buyer state of the C2 counterexample: enabled, speed level 0, last
purchase at t = 0. -/
def c2Buyer : AutoBuyerState := { enabled := true, speedLevel := 0, lastBuy := 0 }

/-- Cost callback the engine passes to the auto-buyer, taken at the fresh
engine (used by the C2 counterexample with zero resources). -/
def c2CostF : String → ℚ := GameEngine.getProducerCost (GameEngine.initialEngine 0)

/-- Engine of the C3 scenario after the auto-buy upgrade was bought out of
3200 clicked-up resources (engine constructed at t = 0). -/
def c3Owned : GameEngineState :=
  (GameEngine.purchaseUpgrade
    { (GameEngine.initialEngine 0) with resources := 3200 } "autoBuy").1

/-- Engine of the C3 scenario right after auto-buy is toggled on at
t = 40000. -/
def c3Toggled : GameEngineState := GameEngine.toggleAutoBuy 40000 c3Owned

/-- Engine of the C3 scenario after the first tick following the toggle,
only 1 ms after enabling. -/
def c3Ticked : GameEngineState := GameEngine.update 40001 c3Toggled

/-- C4 scenario: click-power upgrade bought on a fresh engine holding
10000 resources, then `reset` at t = 999. -/
def c4Upgraded : GameEngineState × Bool :=
  GameEngine.purchaseClickPowerUpgrade
    { (GameEngine.initialEngine 0) with resources := 10000 }

/-- C6 witness scenario: fresh engine holding 6000 resources. -/
def c6Rich : GameEngineState := { (GameEngine.initialEngine 0) with resources := 6000 }

/-- C7 scenario: the characters of the word `hello` followed by a space,
typed one at a time from the initial typing state at t = 0. -/
def c7Run : TypingEngineState × ℚ :=
  TypingEngine.handleChars 0 0 initialTyping ['h', 'e', 'l', 'l', 'o', ' ']

/-- Started `git init` challenge (started at t = 0, 6-second limit) used by
the C8 and C10 scenarios. -/
def gitInitStarted : ActiveChallenge :=
  { id := "git-init", snippet := "git init", descr := "Initialize a new repository",
    timeLimitMs := 6000, startTime := 0, progress := 0, startedOnNewLine := true }

/-- Engine of the C8 counterexample: fresh engine whose typing engine holds
the started `git init` challenge. -/
def c8Engine : GameEngineState :=
  { (GameEngine.initialEngine 0) with
    typing := { initialTyping with challenge := some gitInitStarted } }

/-- Typing state used by the C8 and C10 witnesses: the started `git init`
challenge on an otherwise initial typing state. -/
def c10State : TypingEngineState := { initialTyping with challenge := some gitInitStarted }

/-- Challenge of the C10 boundary witness: `git init` started with three
characters already matched, so the next expected character is the space. -/
def c10SpaceChallenge : ActiveChallenge := { gitInitStarted with progress := 3 }

/-- Typing state of the C10 boundary witness: three-character word in
progress, last typed character `t`. -/
def c10SpaceState : TypingEngineState :=
  { initialTyping with
    challenge := some c10SpaceChallenge,
    currentWordLength := 3,
    lastTypedChar := some 't' }

/-- Awaiting-start variant of the `git init` challenge for the C10 exempt
case. -/
def c10Awaiting : ActiveChallenge := { gitInitStarted with startedOnNewLine := false }

/-- Typing state of the C10 exempt-newline witness. -/
def c10AwaitState : TypingEngineState :=
  { initialTyping with challenge := some c10Awaiting }


/-!
Claim development: helper lemmas followed by one theorem per claim, with
witnesses for hypothesis-bearing theorems and counterexamples where the
claim fails on the embedded code.
-/

/-- Floor of `b * m ^ q` is non-decreasing in `q` when the base is
non-negative and the multiplier is at least one. -/
lemma floor_cost_mono (b m : ℚ) (hb : 0 ≤ b) (hm : 1 ≤ m) (q : Nat) :
    (⌊b * m ^ q⌋ : ℤ) ≤ ⌊b * m ^ (q + 1)⌋ := by
  have h0 : (0 : ℚ) ≤ m := le_trans zero_le_one hm
  have h1 : m ^ q ≤ m ^ (q + 1) := by
    calc m ^ q = m ^ q * 1 := by ring
    _ ≤ m ^ q * m := mul_le_mul_of_nonneg_left hm (pow_nonneg h0 q)
    _ = m ^ (q + 1) := by ring
  exact Int.floor_le_floor (mul_le_mul_of_nonneg_left h1 hb)

/-- One is a lower bound of `m ^ q` when `1 ≤ m`. -/
lemma one_le_pow_aux (m : ℚ) (hm : 1 ≤ m) (q : Nat) : 1 ≤ m ^ q := by
  induction q with
  | zero => simp
  | succ n ih =>
    calc (1 : ℚ) = 1 * 1 := by ring
    _ ≤ m ^ n * m := by
        exact mul_le_mul ih hm zero_le_one (le_trans zero_le_one ih)
    _ = m ^ (n + 1) := by ring

/-- Floor of `b * m ^ q` strictly increases with `q` when the multiplier
exceeds one and each step grows the value by at least one. -/
lemma floor_cost_strict (b m : ℚ) (hm : 1 < m) (hb : 1 ≤ b * (m - 1)) (q : Nat) :
    (⌊b * m ^ q⌋ : ℤ) < ⌊b * m ^ (q + 1)⌋ := by
  have h0 : (1 : ℚ) ≤ m := le_of_lt hm
  have hp : (1 : ℚ) ≤ m ^ q := one_le_pow_aux m h0 q
  have h3 : b * (m - 1) * 1 ≤ b * (m - 1) * m ^ q :=
    mul_le_mul_of_nonneg_left hp (le_trans zero_le_one hb)
  have h4 : (1 : ℚ) ≤ b * (m - 1) * m ^ q := le_trans (by linarith) h3
  have h5 : b * m ^ (q + 1) = b * m ^ q + b * (m - 1) * m ^ q := by ring
  have key : b * m ^ q + 1 ≤ b * m ^ (q + 1) := by linarith
  have h2 : (⌊b * m ^ q⌋ : ℤ) + 1 ≤ ⌊b * m ^ (q + 1)⌋ := by
    have := Int.floor_le_floor key
    rwa [Int.floor_add_one] at this
  omega

/-- Cast form of `floor_cost_mono` at the rational level. -/
lemma cost_mono_q (b m : ℚ) (hb : 0 ≤ b) (hm : 1 ≤ m) (q : Nat) :
    ((⌊b * m ^ q⌋ : ℤ) : ℚ) ≤ ((⌊b * m ^ (q + 1)⌋ : ℤ) : ℚ) := by
  exact_mod_cast floor_cost_mono b m hb hm q

/-- Cast form of `floor_cost_strict` at the rational level. -/
lemma cost_strict_q (b m : ℚ) (hm : 1 < m) (hb : 1 ≤ b * (m - 1)) (q : Nat) :
    ((⌊b * m ^ q⌋ : ℤ) : ℚ) < ((⌊b * m ^ (q + 1)⌋ : ℤ) : ℚ) := by
  exact_mod_cast floor_cost_strict b m hm hb q

/-- C9: for every producer of the game, the purchase cost equals
`floor(baseCost × costMultiplier ^ quantity)`, is non-decreasing in the
quantity, and strictly increases with the quantity whenever the cost
multiplier exceeds one. -/
theorem producer_cost_monotone (p : ProducerTier) (hp : p ∈ initialProducers) (q : Nat) :
    ProducerManager.getCost { p with quantity := q } =
      ((⌊p.baseCost * p.costMultiplier ^ q⌋ : ℤ) : ℚ) ∧
    ProducerManager.getCost { p with quantity := q } ≤
      ProducerManager.getCost { p with quantity := q + 1 } ∧
    (1 < p.costMultiplier →
      ProducerManager.getCost { p with quantity := q } <
        ProducerManager.getCost { p with quantity := q + 1 }) := by
  fin_cases hp
  · exact ⟨rfl, cost_mono_q 0 1 (by norm_num) (by norm_num) q,
      fun h => absurd h (by norm_num)⟩
  · exact ⟨rfl, cost_mono_q 120 (116/100) (by norm_num) (by norm_num) q,
      fun _ => cost_strict_q 120 (116/100) (by norm_num) (by norm_num) q⟩
  · exact ⟨rfl, cost_mono_q 600 (116/100) (by norm_num) (by norm_num) q,
      fun _ => cost_strict_q 600 (116/100) (by norm_num) (by norm_num) q⟩
  · exact ⟨rfl, cost_mono_q 3000 (116/100) (by norm_num) (by norm_num) q,
      fun _ => cost_strict_q 3000 (116/100) (by norm_num) (by norm_num) q⟩
  · exact ⟨rfl, cost_mono_q 15000 (116/100) (by norm_num) (by norm_num) q,
      fun _ => cost_strict_q 15000 (116/100) (by norm_num) (by norm_num) q⟩

/-- Witness for C9 at the Script Runner tier and quantity zero. -/
theorem producer_cost_monotone_witness :
    ProducerManager.getCost { initialProducers.get ⟨1, by decide⟩ with quantity := 0 } ≤
      ProducerManager.getCost { initialProducers.get ⟨1, by decide⟩ with quantity := 1 } := by
  exact (producer_cost_monotone (initialProducers.get ⟨1, by decide⟩)
    (List.get_mem initialProducers 1 (by decide)) 0).2.1


/-- C1 (code bug): the fourth Cloud Orchestrator purchase at t = 1000
succeeds, yet the cached recommendation stays `cloudOrchestrator` with the
last-calculation timestamp still at 0, although recomputing from the
post-purchase costs yields `ciPipeline` — the 5-second throttle in
`recalcBestValue` is not bypassed after a purchase, contrary to the
`calculateBestValue` documentation and the spec. -/
theorem purchase_keeps_stale_best_value :
    c1Result.2 = true ∧
    c1Result.1.bestValueProducerId = some "cloudOrchestrator" ∧
    c1Result.1.producerManager.lastCalc = 0 ∧
    (ProducerManager.recalcBestValue { bestValueId := none, lastCalc := 0 }
      c1Result.1.producers 1000).bestValueId = some "ciPipeline" := by
  decide

/-- C2 (counterexample): an enabled auto-buyer a full interval past its
last purchase, with zero resources so that no producer is affordable,
returns no purchase and leaves `lastBuy` at 0 instead of updating it to
the current time 30000 as the claim requires. -/
theorem autobuy_unaffordable_cycle_cex :
    AutoBuyer.getIntervalMs c2Buyer ≤ 30000 - c2Buyer.lastBuy ∧
    AutoBuyer.tryPurchaseBest c2Buyer 30000 0 initialProducers c2CostF =
      (c2Buyer, none) ∧
    (AutoBuyer.tryPurchaseBest c2Buyer 30000 0 initialProducers c2CostF).1.lastBuy
      ≠ 30000 := by
  decide

/-- C2 (amended): in an auto-buy cycle where auto-buy is enabled and a full
interval has elapsed, the last-purchase timestamp is updated only when the
cycle found at least one affordable producer (a cycle that attempts an
actual purchase); when no producer is affordable the timestamp is left
unchanged and the cycle is re-attempted on the next tick. -/
theorem autobuy_timestamp_update_policy :
    (∀ (a : AutoBuyerState) (now : Int) (res : ℚ) (ps : List ProducerTier)
       (f : String → ℚ),
      a.enabled = true →
      AutoBuyer.getIntervalMs a ≤ now - a.lastBuy →
      ps.filter (fun p => (p.id != "codingSession") && decide (f p.id ≤ res)) = [] →
      AutoBuyer.tryPurchaseBest a now res ps f = (a, none)) ∧
    (∀ (a : AutoBuyerState) (now : Int) (res : ℚ) (ps : List ProducerTier)
       (f : String → ℚ) (b : ProducerTier) (rest : List ProducerTier),
      a.enabled = true →
      AutoBuyer.getIntervalMs a ≤ now - a.lastBuy →
      ps.filter (fun p => (p.id != "codingSession") && decide (f p.id ≤ res)) =
        b :: rest →
      (AutoBuyer.tryPurchaseBest a now res ps f).1.lastBuy = now) := by
  constructor
  · intro a now res ps f h1 h2 h3
    simp [AutoBuyer.tryPurchaseBest, h1, h3, not_lt.mpr h2]
  · intro a now res ps f b rest h1 h2 h3
    simp [AutoBuyer.tryPurchaseBest, h1, h3, not_lt.mpr h2]

/-- Witness for C2 (amended) at the counterexample state (nothing
affordable with 0 resources) and at the same state with 200 resources
(Script Runner affordable, timestamp advanced to 30000). -/
theorem autobuy_timestamp_update_policy_witness :
    AutoBuyer.tryPurchaseBest c2Buyer 30000 0 initialProducers c2CostF =
      (c2Buyer, none) ∧
    (AutoBuyer.tryPurchaseBest c2Buyer 30000 200 initialProducers c2CostF).1.lastBuy =
      30000 :=
  ⟨autobuy_timestamp_update_policy.1 c2Buyer 30000 0 initialProducers c2CostF
      rfl (by decide) (by decide),
   autobuy_timestamp_update_policy.2 c2Buyer 30000 200 initialProducers c2CostF
      (initialProducers.get ⟨1, by decide⟩) [] rfl (by decide) (by decide)⟩

/-- C3 (code bug): toggling auto-buy on at t = 40000 resets only the
engine-level `lastAutoBuy` field; the auto-buyer instance still carries
`lastBuy = 0` from construction, so the very next tick at t = 40001 — one
millisecond after enabling — already performs an automatic purchase of the
Script Runner, instead of waiting the full 30000 ms interval. -/
theorem toggle_autobuy_instant_purchase_bug :
    c3Toggled.autoBuyEnabled = true ∧
    c3Toggled.lastAutoBuy = 40000 ∧
    c3Toggled.autoBuyer.lastBuy = 0 ∧
    (GameEngine.findProducer c3Ticked "scriptRunner").map (fun p => p.quantity) =
      some 1 ∧
    c3Ticked.autoBuyer.lastBuy = 40001 := by
  decide

/-- C4 (code bug): after buying the click-power upgrade, `reset` zeroes
resources but leaves the click-power level at 1, so the reset engine is
observably different from a freshly constructed engine, whose level is 0. -/
theorem reset_keeps_progress_bug :
    c4Upgraded.2 = true ∧
    (GameEngine.reset 999 c4Upgraded.1).resources = 0 ∧
    (GameEngine.reset 999 c4Upgraded.1).clickPowerLevel = 1 ∧
    (GameEngine.initialEngine 999).clickPowerLevel = 0 ∧
    GameEngine.reset 999 c4Upgraded.1 ≠ GameEngine.initialEngine 999 := by
  decide

/-- Inserting an id into a modelled JS set always leaves it a member. -/
lemma mem_addId (l : List String) (x : String) : x ∈ addId l x := by
  by_cases h : x ∈ l <;> simp [addId, h]

/-- C6: every failed purchase path is a strict no-op — a failing
`ProducerManager.purchase` returns the untouched producer and resources, a
`purchaseProducer` call returning false leaves the engine unchanged, a
`purchaseUpgrade` call returning false leaves the engine unchanged, and a
second purchase of an upgrade just bought returns false and changes
nothing. -/
theorem failed_purchase_unchanged :
    (∀ (p : ProducerTier) (res : ℚ),
      (ProducerManager.purchase p res).success = false →
      (ProducerManager.purchase p res).producer = p ∧
      (ProducerManager.purchase p res).newResources = res) ∧
    (∀ (now : Int) (e : GameEngineState) (pid : String),
      (GameEngine.purchaseProducer now e pid).2 = false →
      (GameEngine.purchaseProducer now e pid).1 = e) ∧
    (∀ (e : GameEngineState) (uid : String),
      (GameEngine.purchaseUpgrade e uid).2 = false →
      (GameEngine.purchaseUpgrade e uid).1 = e) ∧
    (∀ (e : GameEngineState) (uid : String),
      (GameEngine.purchaseUpgrade e uid).2 = true →
      (GameEngine.purchaseUpgrade ((GameEngine.purchaseUpgrade e uid).1) uid).2 =
        false ∧
      (GameEngine.purchaseUpgrade ((GameEngine.purchaseUpgrade e uid).1) uid).1 =
        (GameEngine.purchaseUpgrade e uid).1) := by
  refine ⟨?_, ?_, ?_, ?_⟩
  · intro p res h
    by_cases hc : res < ProducerManager.getCost p ∨ ProducerManager.getCost p ≤ 0
    · simp [ProducerManager.purchase, hc]
    · exfalso; simp [ProducerManager.purchase, hc] at h
  · intro now e pid h
    rcases hf : GameEngine.findProducer e pid with _ | p
    · simp [GameEngine.purchaseProducer, hf]
    · by_cases hs : (ProducerManager.purchase p e.resources).success = true
      · exfalso; simp [GameEngine.purchaseProducer, hf, hs] at h
      · simp [GameEngine.purchaseProducer, hf, hs]
  · intro e uid h
    by_cases h1 : uid ∈ e.purchasedUpgrades
    · simp [GameEngine.purchaseUpgrade, h1]
    · rcases hu : findUpgrade uid with _ | u
      · simp [GameEngine.purchaseUpgrade, h1, hu]
      · by_cases h2 : e.resources < u.cost
        · simp [GameEngine.purchaseUpgrade, h1, hu, h2]
        · exfalso; simp [GameEngine.purchaseUpgrade, h1, hu, h2] at h
  · intro e uid h
    by_cases h1 : uid ∈ e.purchasedUpgrades
    · exfalso; simp [GameEngine.purchaseUpgrade, h1] at h
    · rcases hu : findUpgrade uid with _ | u
      · exfalso; simp [GameEngine.purchaseUpgrade, h1, hu] at h
      · by_cases h2 : e.resources < u.cost
        · exfalso; simp [GameEngine.purchaseUpgrade, h1, hu, h2] at h
        · have hres : (GameEngine.purchaseUpgrade e uid).1 =
              { e with resources := e.resources - u.cost,
                       purchasedUpgrades := addId e.purchasedUpgrades uid } := by
            simp [GameEngine.purchaseUpgrade, h1, hu, h2]
          constructor <;>
            (rw [hres]; simp [GameEngine.purchaseUpgrade, mem_addId])

/-- Witness for C6: the manual producer is rejected at any funds, the
typing upgrade is unaffordable on a fresh engine, and buying the typing
upgrade with 6000 resources succeeds while the repeated purchase fails. -/
theorem failed_purchase_unchanged_witness :
    (ProducerManager.purchase (initialProducers.get ⟨0, by decide⟩) 5).newResources =
      5 ∧
    (GameEngine.purchaseProducer 0 (GameEngine.initialEngine 0) "scriptRunner").1 =
      GameEngine.initialEngine 0 ∧
    (GameEngine.purchaseUpgrade (GameEngine.initialEngine 0) "typing").1 =
      GameEngine.initialEngine 0 ∧
    (GameEngine.purchaseUpgrade ((GameEngine.purchaseUpgrade c6Rich "typing").1)
      "typing").2 = false :=
  ⟨(failed_purchase_unchanged.1 (initialProducers.get ⟨0, by decide⟩) 5 (by decide)).2,
   failed_purchase_unchanged.2.1 0 (GameEngine.initialEngine 0) "scriptRunner"
     (by decide),
   failed_purchase_unchanged.2.2.1 (GameEngine.initialEngine 0) "typing" (by decide),
   (failed_purchase_unchanged.2.2.2 c6Rich "typing" (by decide)).1⟩

/-- C7 (counterexample): typing `hello ` from the initial typing state
yields total reward 31/4 = 7.75, not the claimed
`5·baseCharValue·1 + 5·baseCharValue·wordBonusMultiplier·1 = 7.5`, because
`completeWord` increments the streak before reading the multiplier. -/
theorem hello_word_bonus_cex :
    c7Run.2 = 31/4 ∧
    c7Run.1.wordsTyped = 1 ∧
    c7Run.2 ≠ 5 * baseCharValue * 1 + 5 * baseCharValue * wordBonusMultiplier * 1 := by
  decide

/-- C7 (amended): the word bonus for `hello ` uses the streak multiplier
taken after the completed word increments the streak, i.e.
`1 + streakStep`; the per-character rewards are at multiplier 1 and the
words-typed counter becomes 1. -/
theorem hello_word_bonus_amended :
    c7Run.2 = 5 * baseCharValue * 1 +
      5 * baseCharValue * wordBonusMultiplier * (1 + streakStep) ∧
    c7Run.1.wordsTyped = 1 := by
  decide

/-- C8 (counterexample): with a started `git init` challenge begun at t = 0
(6-second limit), calling `update` at t = 10000 leaves the timed-out
challenge active and the failed-challenge count at 0 — the current
engine＇s `update` has no challenge-timeout step. -/
theorem update_ignores_challenge_timeout_cex :
    gitInitStarted.timeLimitMs < 10000 - gitInitStarted.startTime ∧
    (GameEngine.update 10000 c8Engine).typing.challenge = some gitInitStarted ∧
    (GameEngine.update 10000 c8Engine).typing.failedChallenges = 0 := by
  decide

/-- Auto-buy handling never touches the typing engine state. -/
lemma handleAutoBuy_typing (now : Int) (e : GameEngineState) :
    (GameEngine.handleAutoBuy now e).typing = e.typing := by
  simp only [GameEngine.handleAutoBuy]
  split
  · rfl
  · split
    · rfl
    · split <;> rfl

/-- When the challenge branch does not early-return, `handleChar` is the
challenge branch followed by the normal anti-spam and reward steps, with
the rewards of the two phases added. -/
lemma handleChar_no_early (now : Int) (randIdx : Nat) (ch : Char)
    (s : TypingEngineState)
    (h : (TypingEngine.challengePhase now ch s).2.2 = false) :
    TypingEngine.handleChar now randIdx ch s =
      ((TypingEngine.normalPhase now randIdx ch
          (TypingEngine.challengePhase now ch s).1).1,
       (TypingEngine.challengePhase now ch s).2.1 +
         (TypingEngine.normalPhase now randIdx ch
           (TypingEngine.challengePhase now ch s).1).2) := by
  simp [TypingEngine.handleChar, h]

/-- The normal steps on a non-boundary character never change the active
challenge, the failed count, or the streak. -/
lemma normalPhase_preserves (now : Int) (randIdx : Nat) (ch : Char)
    (s : TypingEngineState) (h : isBoundary ch = false) :
    (TypingEngine.normalPhase now randIdx ch s).1.challenge = s.challenge ∧
    (TypingEngine.normalPhase now randIdx ch s).1.failedChallenges =
      s.failedChallenges ∧
    (TypingEngine.normalPhase now randIdx ch s).1.streakWords = s.streakWords := by
  simp only [TypingEngine.normalPhase, h, Bool.not_false]
  split_ifs <;> simp_all

/-- C8 (amended): `update` never changes the typing state, so a timed-out
challenge is not failed during the update tick; it is failed on the next
typed character — `handleChar` on a state whose active challenge has
exceeded its time limit clears the challenge, increments the failed count,
and resets the streak to zero (stated for a non-boundary character, which
leaves those fields untouched in the post-challenge steps). -/
theorem challenge_timeout_failed_on_next_char :
    (∀ (now : Int) (e : GameEngineState),
      (GameEngine.update now e).typing = e.typing) ∧
    (∀ (now : Int) (randIdx : Nat) (ch : Char) (s : TypingEngineState)
       (c : ActiveChallenge),
      s.challenge = some c →
      c.timeLimitMs < now - c.startTime →
      isBoundary ch = false →
      (TypingEngine.handleChar now randIdx ch s).1.challenge = none ∧
      (TypingEngine.handleChar now randIdx ch s).1.failedChallenges =
        s.failedChallenges + 1 ∧
      (TypingEngine.handleChar now randIdx ch s).1.streakWords = 0) := by
  constructor
  · intro now e
    simp only [GameEngine.update, apply_ite (fun x : GameEngineState => x.typing)]
    rw [handleAutoBuy_typing]
    simp [apply_ite (fun x : GameEngineState => x.typing)]
  · intro now randIdx ch s c h1 h2 h3
    have hphase : TypingEngine.challengePhase now ch s =
        (TypingEngine.failChallenge s, 0, false) := by
      simp [TypingEngine.challengePhase, h1, h2]
    have hfail : TypingEngine.failChallenge s =
        { s with failedChallenges := s.failedChallenges + 1, streakWords := 0,
                 challenge := none } := by
      simp [TypingEngine.failChallenge, h1]
    have h0 : (TypingEngine.challengePhase now ch s).2.2 = false := by rw [hphase]
    rw [handleChar_no_early now randIdx ch s h0, hphase, hfail]
    obtain ⟨ha, hb, hc⟩ := normalPhase_preserves now randIdx ch
      { s with failedChallenges := s.failedChallenges + 1, streakWords := 0,
               challenge := none } h3
    exact ⟨ha, hb, hc⟩

/-- Witness for C8 (amended): on the timed-out `git init` state, `update`
leaves typing untouched while typing `x` at t = 10000 fails the challenge. -/
theorem challenge_timeout_failed_on_next_char_witness :
    (GameEngine.update 10000 c8Engine).typing = c8Engine.typing ∧
    (TypingEngine.handleChar 10000 0 'x' c10State).1.challenge = none ∧
    (TypingEngine.handleChar 10000 0 'x' c10State).1.failedChallenges = 1 ∧
    (TypingEngine.handleChar 10000 0 'x' c10State).1.streakWords = 0 :=
  ⟨challenge_timeout_failed_on_next_char.1 10000 c8Engine,
   (challenge_timeout_failed_on_next_char.2 10000 0 'x' c10State gitInitStarted
      rfl (by decide) (by decide)).1,
   (challenge_timeout_failed_on_next_char.2 10000 0 'x' c10State gitInitStarted
      rfl (by decide) (by decide)).2.1,
   (challenge_timeout_failed_on_next_char.2 10000 0 'x' c10State gitInitStarted
      rfl (by decide) (by decide)).2.2⟩

/-- A started challenge never takes the early-return branch of the
challenge phase. -/
lemma challengePhase_started_no_early (now : Int) (ch : Char)
    (s : TypingEngineState) (c : ActiveChallenge)
    (h1 : s.challenge = some c) (h2 : c.startedOnNewLine = true) :
    (TypingEngine.challengePhase now ch s).2.2 = false := by
  simp only [TypingEngine.challengePhase, h1, h2, Bool.not_true]
  split_ifs <;> simp_all

/-- Challenge phase on the expected (non-final, non-newline) character of a
started, unexpired challenge: progress advances by one, no reward, no
early return. -/
lemma challengePhase_advance (now : Int) (ch : Char) (s : TypingEngineState)
    (c : ActiveChallenge)
    (h1 : s.challenge = some c) (h2 : c.startedOnNewLine = true)
    (h3 : ¬(c.timeLimitMs < now - c.startTime)) (h4 : ch ≠ '\n')
    (h5 : c.snippet.data[c.progress]? = some ch)
    (h6 : ¬(c.progress + 1 ≥ c.snippet.length)) :
    TypingEngine.challengePhase now ch s =
      ({ s with challenge := some { c with progress := c.progress + 1 } }, 0, false) := by
  simp [TypingEngine.challengePhase, h1, h2, h3, h4, h5, h6]

/-- C10: characters processed while a challenge is started also pass
through the normal anti-spam and reward steps — `handleChar` is the
challenge branch followed by the normal phase; the newline that flips an
awaiting-start challenge to started is the only early return; a
non-boundary character matching the next expected challenge character both
advances progress and earns the ordinary per-character reward while
extending the current word; and an expected word-boundary character both
advances progress and finalizes the current word. -/
theorem challenge_chars_pass_normal_steps :
    (∀ (now : Int) (randIdx : Nat) (ch : Char) (s : TypingEngineState)
       (c : ActiveChallenge),
      s.challenge = some c → c.startedOnNewLine = true →
      TypingEngine.handleChar now randIdx ch s =
        ((TypingEngine.normalPhase now randIdx ch
            (TypingEngine.challengePhase now ch s).1).1,
         (TypingEngine.challengePhase now ch s).2.1 +
           (TypingEngine.normalPhase now randIdx ch
             (TypingEngine.challengePhase now ch s).1).2)) ∧
    (∀ (now : Int) (randIdx : Nat) (s : TypingEngineState) (c : ActiveChallenge),
      s.challenge = some c → c.startedOnNewLine = false →
      ¬(c.timeLimitMs < now - c.startTime) →
      TypingEngine.handleChar now randIdx '\n' s =
        ({ s with challenge := some { c with startedOnNewLine := true } }, 0)) ∧
    (∀ (now : Int) (randIdx : Nat) (ch : Char) (s : TypingEngineState)
       (c : ActiveChallenge),
      s.challenge = some c → c.startedOnNewLine = true →
      ¬(c.timeLimitMs < now - c.startTime) → ch ≠ '\n' →
      c.snippet.data[c.progress]? = some ch →
      ¬(c.progress + 1 ≥ c.snippet.length) →
      s.lastTypedChar ≠ some ch →
      isBoundary ch = false →
      TypingEngine.handleChar now randIdx ch s =
        ({ s with challenge := some { c with progress := c.progress + 1 },
                  lastTypedChar := some ch, consecutiveSameCharCount := 1,
                  currentWordLength := s.currentWordLength + 1 },
         baseCharValue * TypingEngine.streakMultiplier s)) ∧
    (∀ (now : Int) (randIdx : Nat) (ch : Char) (s : TypingEngineState)
       (c : ActiveChallenge),
      s.challenge = some c → c.startedOnNewLine = true →
      ¬(c.timeLimitMs < now - c.startTime) → ch ≠ '\n' →
      c.snippet.data[c.progress]? = some ch →
      ¬(c.progress + 1 ≥ c.snippet.length) →
      s.lastTypedChar ≠ some ch →
      isBoundary ch = true →
      0 < s.currentWordLength →
      (TypingEngine.handleChar now randIdx ch s).1.wordsTyped = s.wordsTyped + 1 ∧
      (TypingEngine.handleChar now randIdx ch s).1.currentWordLength = 0 ∧
      (TypingEngine.handleChar now randIdx ch s).1.challenge =
        some { c with progress := c.progress + 1 }) := by
  refine ⟨?_, ?_, ?_, ?_⟩
  · intro now randIdx ch s c h1 h2
    exact handleChar_no_early now randIdx ch s
      (challengePhase_started_no_early now ch s c h1 h2)
  · intro now randIdx s c h1 h2 h3
    simp [TypingEngine.handleChar, TypingEngine.challengePhase, h1, h2, h3]
  · intro now randIdx ch s c h1 h2 h3 h4 h5 h6 h7 h8
    rw [handleChar_no_early now randIdx ch s
      (challengePhase_started_no_early now ch s c h1 h2)]
    rw [challengePhase_advance now ch s c h1 h2 h3 h4 h5 h6]
    simp [TypingEngine.normalPhase, TypingEngine.streakMultiplier, h7, h8]
  · intro now randIdx ch s c h1 h2 h3 h4 h5 h6 h7 h8 h9
    rw [handleChar_no_early now randIdx ch s
      (challengePhase_started_no_early now ch s c h1 h2)]
    rw [challengePhase_advance now ch s c h1 h2 h3 h4 h5 h6]
    simp [TypingEngine.normalPhase, TypingEngine.handleWordBoundary,
      TypingEngine.completeWord, h7, h8, h9]

/-- Witness for C10 on the started `git init` challenge: an unrelated
character passes through, `g` advances the challenge with the ordinary
reward, the space after `git` advances the challenge and completes a
three-letter word, and a newline starts the awaiting challenge without
running the normal steps. -/
theorem challenge_chars_pass_normal_steps_witness :
    TypingEngine.handleChar 1 0 'g' c10State =
      ((TypingEngine.normalPhase 1 0 'g'
          (TypingEngine.challengePhase 1 'g' c10State).1).1,
       (TypingEngine.challengePhase 1 'g' c10State).2.1 +
         (TypingEngine.normalPhase 1 0 'g'
           (TypingEngine.challengePhase 1 'g' c10State).1).2) ∧
    TypingEngine.handleChar 1 0 '\n' c10AwaitState =
      ({ c10AwaitState with
         challenge := some { c10Awaiting with startedOnNewLine := true } }, 0) ∧
    TypingEngine.handleChar 1 0 'g' c10State =
      ({ c10State with
         challenge := some { gitInitStarted with progress := 1 },
         lastTypedChar := some 'g', consecutiveSameCharCount := 1,
         currentWordLength := 1 },
       baseCharValue * TypingEngine.streakMultiplier c10State) ∧
    (TypingEngine.handleChar 1 0 ' ' c10SpaceState).1.wordsTyped = 1 ∧
    (TypingEngine.handleChar 1 0 ' ' c10SpaceState).1.challenge =
      some { c10SpaceChallenge with progress := 4 } :=
  ⟨challenge_chars_pass_normal_steps.1 1 0 'g' c10State gitInitStarted rfl rfl,
   challenge_chars_pass_normal_steps.2.1 1 0 c10AwaitState c10Awaiting rfl rfl
     (by decide),
   challenge_chars_pass_normal_steps.2.2.1 1 0 'g' c10State gitInitStarted rfl rfl
     (by decide) (by decide) (by decide) (by decide) (by decide) (by decide),
   (challenge_chars_pass_normal_steps.2.2.2 1 0 ' ' c10SpaceState c10SpaceChallenge
     rfl rfl (by decide) (by decide) (by decide) (by decide) (by decide) (by decide)
     (by decide)).1,
   (challenge_chars_pass_normal_steps.2.2.2 1 0 ' ' c10SpaceState c10SpaceChallenge
     rfl rfl (by decide) (by decide) (by decide) (by decide) (by decide) (by decide)
     (by decide)).2.2⟩

/-- Updating with a saved entry whose id differs from the head leaves the
head untouched. -/
lemma loadProducersStep_ne (p : ProducerTier) (t : List ProducerTier)
    (sp : GameEngine.SavedProducer) (h : p.id ≠ sp.id) :
    GameEngine.loadProducersStep (p :: t) sp = p :: GameEngine.loadProducersStep t sp := by
  simp [GameEngine.loadProducersStep, h]

/-- Folding saved entries that never mention the head id keeps the head. -/
lemma foldl_loadProducersStep_cons (p : ProducerTier) (t : List ProducerTier)
    (l : List GameEngine.SavedProducer) (h : ∀ sp ∈ l, p.id ≠ sp.id) :
    List.foldl GameEngine.loadProducersStep (p :: t) l =
      p :: List.foldl GameEngine.loadProducersStep t l := by
  induction l generalizing t with
  | nil => rfl
  | cons sp rest ih =>
    rw [List.foldl_cons, loadProducersStep_ne p t sp (h sp (by simp)),
        List.foldl_cons]
    exact ih (GameEngine.loadProducersStep t sp) (fun x hx => h x (by simp [hx]))

/-- Restoring the producers from their own save snapshot is the identity
when the producer ids are distinct. -/
lemma loadProducers_save (ps : List ProducerTier)
    (h : (ps.map (fun p => p.id)).Nodup) :
    GameEngine.loadProducers ps (ps.map GameEngine.saveProducer) = ps := by
  induction ps with
  | nil => rfl
  | cons p t ih =>
    have hhead : p.id ∉ t.map (fun q => q.id) := (List.nodup_cons.mp h).1
    have h1 : ∀ sp ∈ t.map GameEngine.saveProducer, p.id ≠ sp.id := by
      intro sp hsp
      rcases List.mem_map.mp hsp with ⟨q, hq, rfl⟩
      intro hcontra
      exact hhead (by
        simp only [GameEngine.saveProducer] at hcontra
        exact hcontra ▸ List.mem_map_of_mem (fun q => q.id) hq)
    have h2 : GameEngine.loadProducersStep (p :: t) (GameEngine.saveProducer p) = p :: t := by
      simp [GameEngine.loadProducersStep, GameEngine.saveProducer]
    unfold GameEngine.loadProducers
    rw [List.map_cons, List.foldl_cons, h2,
        foldl_loadProducersStep_cons p t (t.map GameEngine.saveProducer) h1]
    exact congrArg (p :: ·) (ih (List.nodup_cons.mp h).2)

/-- Folding set insertions of fresh, distinct elements appends them. -/
lemma foldl_addId_disjoint (l : List String) :
    ∀ acc : List String, (∀ x ∈ l, x ∉ acc) → l.Nodup →
      List.foldl addId acc l = acc ++ l := by
  induction l with
  | nil => intro acc _ _; simp
  | cons x rest ih =>
    intro acc hd h
    rw [List.foldl_cons]
    have hx : addId acc x = acc ++ [x] := by simp [addId, hd x (by simp)]
    rw [hx, ih (acc ++ [x]) ?_ ((List.nodup_cons.mp h).2)]
    · simp
    · intro y hy
      simp only [List.mem_append, List.mem_singleton]
      rintro (hya | rfl)
      · exact hd y (List.mem_cons_of_mem x hy) hya
      · exact (List.nodup_cons.mp h).1 hy

/-- Rebuilding a duplicate-free modelled set (`new Set(array)`) is the
identity. -/
lemma dedupKeep_nodup (l : List String) (h : l.Nodup) : dedupKeep l = l := by
  have := foldl_addId_disjoint l [] (by simp) h
  simpa [dedupKeep] using this

/-- Loading an engine from its own save snapshot is the identity, given the
invariants every reachable engine satisfies: distinct producer ids, the
challenges-enabled flag mirrored into the typing engine, the cached
production rate in sync with the producers, and duplicate-free id sets. -/
lemma load_save_eq (e : GameEngineState)
    (hids : (e.producers.map (fun p => p.id)).Nodup)
    (hch : e.challengesEnabled = e.typing.challengesEnabled)
    (hrate : e.productionRate = ProducerManager.totalProduction e.producers)
    (hunl : e.unlockedProducers.Nodup)
    (hpur : e.purchasedUpgrades.Nodup) :
    GameEngine.load (GameEngine.save e) e = e := by
  obtain ⟨res, rate, prods, abe, absl, lu, lab, bvid, ty, ab, pm, unl, pur, cpl, che⟩ := e
  obtain ⟨ltc, cscc, wt, sw, cwl, chal, lcw, cct, fct, tce⟩ := ty
  have hch2 : che = tce := hch
  have hrate2 : rate = ProducerManager.totalProduction prods := hrate
  have hids2 : (prods.map (fun p => p.id)).Nodup := hids
  have hunl2 : unl.Nodup := hunl
  have hpur2 : pur.Nodup := hpur
  subst hch2
  simp only [GameEngine.load, GameEngine.save, GameEngine.updateProductionRate]
  rw [loadProducers_save prods hids2, ← hrate2,
      dedupKeep_nodup unl hunl2, dedupKeep_nodup pur hpur2]
  simp

/-- C5: calling `load(save())` on an engine leaves the `getState` snapshot
observably identical (exactly identical in the rational-number model),
under the reachable-state invariants of `load_save_eq`. -/
theorem getState_load_save_roundtrip (now : Int) (e : GameEngineState)
    (hids : (e.producers.map (fun p => p.id)).Nodup)
    (hch : e.challengesEnabled = e.typing.challengesEnabled)
    (hrate : e.productionRate = ProducerManager.totalProduction e.producers)
    (hunl : e.unlockedProducers.Nodup)
    (hpur : e.purchasedUpgrades.Nodup) :
    (GameEngine.getState now (GameEngine.load (GameEngine.save e) e)).2 =
      (GameEngine.getState now e).2 := by
  rw [load_save_eq e hids hch hrate hunl hpur]

/-- Witness for C5 at the freshly constructed engine. -/
theorem getState_load_save_roundtrip_witness :
    (GameEngine.getState 0 (GameEngine.load
        (GameEngine.save (GameEngine.initialEngine 0))
        (GameEngine.initialEngine 0))).2 =
      (GameEngine.getState 0 (GameEngine.initialEngine 0)).2 :=
  getState_load_save_roundtrip 0 (GameEngine.initialEngine 0)
    (by decide) rfl (by decide) (by decide) (by decide)

end IdleWebz
